import Mathlib

/-!
Verification development for the `swift` package (qiwis repository):
a shallow embedding of `swift/swift.py` — the descriptor type `AppInfo`
with its JSON (de)serialization helpers `parse` and `strinfo`, and the
`Swift` manager with `createApp`, `destroyApp`, `_broadcast`,
`_call_system` and `_add_to_path` — together with theorems settling the
specified properties of that code.

Modelling conventions:
- Python runtime values that the code inspects are embedded as `PyValue`
  (`None`, booleans, integers, strings, lists, tuples, string-keyed
  dictionaries).  Python equality on these values is structural equality
  of `PyValue`; in particular a tuple and a list are never equal, exactly
  as in Python (`() == []` is `False`).
- Python dictionaries are association lists with pairwise-distinct keys,
  in insertion order.  The dictionary operations (`d[k]`, `d[k] = v`,
  `d.pop(k)`, `defaultdict` access) are modelled by recursive functions
  on those lists that update or remove the first matching key, which is
  the unique matching key for distinct-key lists.
- JSON text is modelled by its parse tree.  `json.dumps` followed by
  `json.loads` is split into `jsonDump` (Python value to tree: tuples
  become arrays) and `jsonLoad` (tree to Python value: objects become
  dictionaries, later duplicate keys overwriting earlier ones), relying
  on the bijection between JSON texts and parse trees.
- Exceptions are modelled by `PyError`; stateful operations return
  `SwiftState × Except PyError α`, keeping the state reached at the point
  an exception escapes, exactly as Python mutations survive a raise.
- Qt collaborators (widgets, signal connections, the import machinery and
  the app classes) are external; an `Env` record says which imports,
  attribute lookups and constructor calls succeed and how many frames an
  app exposes.  Each created app instance is identified by a fresh
  numeric id standing for Python object identity.
-/

/-- Embedded Python runtime value, as far as the code under study inspects
values: `None`, `bool`, `int`, `str`, `list`, `tuple` and string-keyed
`dict`. -/
inductive PyValue : Type where
  | none : PyValue
  | bool (b : Bool) : PyValue
  | int (n : Int) : PyValue
  | str (s : String) : PyValue
  | list (l : List PyValue) : PyValue
  | tuple (l : List PyValue) : PyValue
  | dict (l : List (String × PyValue)) : PyValue

mutual

/-- Boolean structural equality on `PyValue`, used to derive decidable
equality (the automatic deriving does not handle this nested inductive). -/
def PyValue.beq : PyValue → PyValue → Bool
  | .none, .none => true
  | .bool a, .bool b => a == b
  | .int a, .int b => a == b
  | .str a, .str b => a == b
  | .list a, .list b => PyValue.beqList a b
  | .tuple a, .tuple b => PyValue.beqList a b
  | .dict a, .dict b => PyValue.beqDict a b
  | _, _ => false

/-- Pointwise `PyValue.beq` on lists. -/
def PyValue.beqList : List PyValue → List PyValue → Bool
  | [], [] => true
  | x :: xs, y :: ys => PyValue.beq x y && PyValue.beqList xs ys
  | _, _ => false

/-- Pointwise `PyValue.beq` on key-value pair lists. -/
def PyValue.beqDict : List (String × PyValue) → List (String × PyValue) → Bool
  | [], [] => true
  | (k, v) :: xs, (l, w) :: ys => k == l && PyValue.beq v w && PyValue.beqDict xs ys
  | _, _ => false

end

mutual

theorem PyValue.beq_refl : ∀ a : PyValue, PyValue.beq a a = true
  | .none => rfl
  | .bool _ => by simp [PyValue.beq]
  | .int _ => by simp [PyValue.beq]
  | .str _ => by simp [PyValue.beq]
  | .list l => by simp [PyValue.beq, PyValue.beqList_refl l]
  | .tuple l => by simp [PyValue.beq, PyValue.beqList_refl l]
  | .dict l => by simp [PyValue.beq, PyValue.beqDict_refl l]

theorem PyValue.beqList_refl : ∀ l : List PyValue, PyValue.beqList l l = true
  | [] => rfl
  | x :: xs => by simp [PyValue.beqList, PyValue.beq_refl x, PyValue.beqList_refl xs]

theorem PyValue.beqDict_refl : ∀ l : List (String × PyValue), PyValue.beqDict l l = true
  | [] => rfl
  | (_, v) :: xs => by simp [PyValue.beqDict, PyValue.beq_refl v, PyValue.beqDict_refl xs]

end

mutual

theorem PyValue.eq_of_beq : ∀ a b : PyValue, PyValue.beq a b = true → a = b
  | .none, .none, _ => rfl
  | .bool _, .bool _, h => by simp [PyValue.beq] at h; simp [h]
  | .int _, .int _, h => by simp [PyValue.beq] at h; simp [h]
  | .str _, .str _, h => by simp [PyValue.beq] at h; simp [h]
  | .list a, .list b, h => by
      simp only [PyValue.beq] at h
      simp [PyValue.eqList_of_beq a b h]
  | .tuple a, .tuple b, h => by
      simp only [PyValue.beq] at h
      simp [PyValue.eqList_of_beq a b h]
  | .dict a, .dict b, h => by
      simp only [PyValue.beq] at h
      simp [PyValue.eqDict_of_beq a b h]
  | .none, .bool _, h => by simp [PyValue.beq] at h
  | .none, .int _, h => by simp [PyValue.beq] at h
  | .none, .str _, h => by simp [PyValue.beq] at h
  | .none, .list _, h => by simp [PyValue.beq] at h
  | .none, .tuple _, h => by simp [PyValue.beq] at h
  | .none, .dict _, h => by simp [PyValue.beq] at h
  | .bool _, .none, h => by simp [PyValue.beq] at h
  | .bool _, .int _, h => by simp [PyValue.beq] at h
  | .bool _, .str _, h => by simp [PyValue.beq] at h
  | .bool _, .list _, h => by simp [PyValue.beq] at h
  | .bool _, .tuple _, h => by simp [PyValue.beq] at h
  | .bool _, .dict _, h => by simp [PyValue.beq] at h
  | .int _, .none, h => by simp [PyValue.beq] at h
  | .int _, .bool _, h => by simp [PyValue.beq] at h
  | .int _, .str _, h => by simp [PyValue.beq] at h
  | .int _, .list _, h => by simp [PyValue.beq] at h
  | .int _, .tuple _, h => by simp [PyValue.beq] at h
  | .int _, .dict _, h => by simp [PyValue.beq] at h
  | .str _, .none, h => by simp [PyValue.beq] at h
  | .str _, .bool _, h => by simp [PyValue.beq] at h
  | .str _, .int _, h => by simp [PyValue.beq] at h
  | .str _, .list _, h => by simp [PyValue.beq] at h
  | .str _, .tuple _, h => by simp [PyValue.beq] at h
  | .str _, .dict _, h => by simp [PyValue.beq] at h
  | .list _, .none, h => by simp [PyValue.beq] at h
  | .list _, .bool _, h => by simp [PyValue.beq] at h
  | .list _, .int _, h => by simp [PyValue.beq] at h
  | .list _, .str _, h => by simp [PyValue.beq] at h
  | .list _, .tuple _, h => by simp [PyValue.beq] at h
  | .list _, .dict _, h => by simp [PyValue.beq] at h
  | .tuple _, .none, h => by simp [PyValue.beq] at h
  | .tuple _, .bool _, h => by simp [PyValue.beq] at h
  | .tuple _, .int _, h => by simp [PyValue.beq] at h
  | .tuple _, .str _, h => by simp [PyValue.beq] at h
  | .tuple _, .list _, h => by simp [PyValue.beq] at h
  | .tuple _, .dict _, h => by simp [PyValue.beq] at h
  | .dict _, .none, h => by simp [PyValue.beq] at h
  | .dict _, .bool _, h => by simp [PyValue.beq] at h
  | .dict _, .int _, h => by simp [PyValue.beq] at h
  | .dict _, .str _, h => by simp [PyValue.beq] at h
  | .dict _, .list _, h => by simp [PyValue.beq] at h
  | .dict _, .tuple _, h => by simp [PyValue.beq] at h

theorem PyValue.eqList_of_beq : ∀ a b : List PyValue, PyValue.beqList a b = true → a = b
  | [], [], _ => rfl
  | x :: xs, y :: ys, h => by
      simp only [PyValue.beqList, Bool.and_eq_true] at h
      simp [PyValue.eq_of_beq x y h.1, PyValue.eqList_of_beq xs ys h.2]
  | [], _ :: _, h => by simp [PyValue.beqList] at h
  | _ :: _, [], h => by simp [PyValue.beqList] at h

theorem PyValue.eqDict_of_beq :
    ∀ a b : List (String × PyValue), PyValue.beqDict a b = true → a = b
  | [], [], _ => rfl
  | (k, v) :: xs, (l, w) :: ys, h => by
      simp only [PyValue.beqDict, Bool.and_eq_true] at h
      obtain ⟨⟨hk, hv⟩, ht⟩ := h
      have hk2 : k = l := by simpa using hk
      simp [PyValue.eq_of_beq v w hv, PyValue.eqDict_of_beq xs ys ht, hk2]
  | [], _ :: _, h => by simp [PyValue.beqDict] at h
  | _ :: _, [], h => by simp [PyValue.beqDict] at h

end

instance : DecidableEq PyValue := fun a b =>
  if h : PyValue.beq a b = true then .isTrue (PyValue.eq_of_beq a b h)
  else .isFalse (fun he => h (he ▸ PyValue.beq_refl a))

/-- Python dictionary update `d[k] = v` on an association list: the first
(hence, for distinct-key lists, the only) entry with key `k` is replaced in
place, and a missing key is appended at the end, as Python dictionaries
preserve insertion order. -/
def updateAssocPy (l : List (String × PyValue)) (k : String) (v : PyValue) :
    List (String × PyValue) :=
  match l with
  | [] => [(k, v)]
  | p :: t => if p.1 = k then (k, v) :: t else p :: updateAssocPy t k v

/-- Python dictionary built by inserting the given key-value pairs in
order, as `json.loads` does for a JSON object: a repeated key keeps its
first position but takes its last value. -/
def dictFromPairs (l : List (String × PyValue)) : List (String × PyValue) :=
  l.foldl (fun acc p => updateAssocPy acc p.1 p.2) []

mutual

/-- Effect of `json.dumps` on a Python value, seen at the level of the
JSON parse tree: tuples are serialized as JSON arrays, so they come back
as lists; everything else in the `PyValue` universe is preserved
structurally.  The tree returned by `jsonDump` never contains a tuple. -/
def jsonDump : PyValue → PyValue
  | .none => .none
  | .bool b => .bool b
  | .int n => .int n
  | .str s => .str s
  | .list l => .list (jsonDumpList l)
  | .tuple l => .list (jsonDumpList l)
  | .dict l => .dict (jsonDumpPairs l)

/-- Elementwise `jsonDump` on lists. -/
def jsonDumpList : List PyValue → List PyValue
  | [] => []
  | x :: xs => jsonDump x :: jsonDumpList xs

/-- Elementwise `jsonDump` on the values of key-value pairs. -/
def jsonDumpPairs : List (String × PyValue) → List (String × PyValue)
  | [] => []
  | (k, v) :: xs => (k, jsonDump v) :: jsonDumpPairs xs

end

mutual

/-- Effect of `json.loads` on a JSON parse tree: arrays become lists and
objects become dictionaries whose entries are inserted in order, a later
duplicate key overwriting an earlier one. -/
def jsonLoad : PyValue → PyValue
  | .none => .none
  | .bool b => .bool b
  | .int n => .int n
  | .str s => .str s
  | .list l => .list (jsonLoadList l)
  | .tuple l => .tuple (jsonLoadList l)
  | .dict l => .dict (dictFromPairs (jsonLoadPairs l))

/-- Elementwise `jsonLoad` on lists. -/
def jsonLoadList : List PyValue → List PyValue
  | [] => []
  | x :: xs => jsonLoad x :: jsonLoadList xs

/-- Elementwise `jsonLoad` on the values of key-value pairs. -/
def jsonLoadPairs : List (String × PyValue) → List (String × PyValue)
  | [] => []
  | (k, v) :: xs => (k, jsonLoad v) :: jsonLoadPairs xs

end

/-- A Python value is JSON-stable when deserializing its serialization
gives the value back.  Strings, integers, booleans, `None`, and lists and
string-keyed dictionaries of JSON-stable values are JSON-stable; tuples
never are, because `json.dumps` writes them as arrays and `json.loads`
reads arrays back as lists. -/
def jsonStable (v : PyValue) : Prop :=
  jsonLoad (jsonDump v) = v

instance (v : PyValue) : Decidable (jsonStable v) := by
  unfold jsonStable; infer_instance

/-- The descriptor dataclass `AppInfo` of `swift/swift.py` (lines 32-56).
Python dataclasses do not enforce the annotated field types, so every
field holds a `PyValue`; the declared defaults are `path="."`,
`show=True`, `pos=""`, `channel=()` (a tuple) and `args=None`.  The field
named `show` in the source is called `show'` here because `show` is a
Lean keyword.  Dataclass equality is fieldwise Python equality, which is
the derived structural equality. -/
structure AppInfo where
  module : PyValue
  cls : PyValue
  path : PyValue := .str "."
  show' : PyValue := .bool true
  pos : PyValue := .str ""
  channel : PyValue := .tuple []
  args : PyValue := .none
deriving DecidableEq

/-- The declared dataclass field names of `AppInfo`, in declaration
order. -/
def appInfoFields : List String :=
  ["module", "cls", "path", "show", "pos", "channel", "args"]

/-- Errors raised by the embedded code, naming the Python exception or its
role: `jsonDecodeError` for `json.JSONDecodeError`, `keyError` for
`KeyError`, `attributeError` for `AttributeError` (a failing `getattr` or
a missing `.items`), `importError` for `ModuleNotFoundError`,
`unexpectedKeyword` and `missingArguments` and `multipleValues` for the
corresponding `TypeError` variants of a Python call, `typeError` for the
remaining `TypeError` conditions, and `ctorError` for an arbitrary
exception escaping an app class constructor. -/
inductive PyError : Type where
  | jsonDecodeError : PyError
  | keyError : PyError
  | attributeError : PyError
  | importError : PyError
  | unexpectedKeyword (k : String) : PyError
  | missingArguments (ks : List String) : PyError
  | multipleValues (k : String) : PyError
  | typeError : PyError
  | ctorError : PyError
deriving DecidableEq

/-- Lookup of a key in an association list, modelling Python `d.get(k)` /
`k in d` on a dictionary: the first entry with key `k` (for distinct-key
lists, the only one). -/
def lookupPy (l : List (String × PyValue)) (k : String) : Option PyValue :=
  match l with
  | [] => Option.none
  | p :: t => if p.1 = k then Option.some p.2 else lookupPy t k

/-- The call `AppInfo(**kwargs)` for a keyword dictionary `kwargs`:
CPython first rejects a keyword that is not a parameter of the dataclass
`__init__` (`TypeError: unexpected keyword argument`), then reports the
required parameters (`module`, `cls`) that were not supplied
(`TypeError: missing required positional arguments`), and otherwise fills
the remaining fields from the declared defaults.  Values are not
type-checked, as dataclasses do not enforce annotations. -/
def mkAppInfo (kwargs : List (String × PyValue)) : Except PyError AppInfo :=
  match kwargs.find? (fun p => !(appInfoFields.contains p.1)) with
  | Option.some p => .error (.unexpectedKeyword p.1)
  | Option.none =>
    match lookupPy kwargs "module", lookupPy kwargs "cls" with
    | Option.some m, Option.some c =>
        .ok { module := m
              cls := c
              path := (lookupPy kwargs "path").getD (.str ".")
              show' := (lookupPy kwargs "show").getD (.bool true)
              pos := (lookupPy kwargs "pos").getD (.str "")
              channel := (lookupPy kwargs "channel").getD (.tuple [])
              args := (lookupPy kwargs "args").getD .none }
    | Option.some _, Option.none => .error (.missingArguments ["cls"])
    | Option.none, Option.some _ => .error (.missingArguments ["module"])
    | Option.none, Option.none => .error (.missingArguments ["module", "cls"])

/-- The function `parse(AppInfo, kwargs)` of `swift/swift.py` (lines
59-72), at the parse-tree level: `json.loads` the text, then call
`AppInfo(**·)`.  Unpacking `**` a non-mapping raises `TypeError`. -/
def parse (j : PyValue) : Except PyError AppInfo :=
  match jsonLoad j with
  | .dict l => mkAppInfo l
  | _ => .error .typeError

/-- The function `strinfo(info)` of `swift/swift.py` (lines 75-83), at the
parse-tree level: `json.dumps(asdict(info))`.  `dataclasses.asdict`
produces the field dictionary in declaration order with deep-copied
values, and `json.dumps` serializes it. -/
def strinfo (info : AppInfo) : PyValue :=
  jsonDump (.dict [("module", info.module), ("cls", info.cls),
                   ("path", info.path), ("show", info.show'),
                   ("pos", info.pos), ("channel", info.channel),
                   ("args", info.args)])

deriving instance DecidableEq for Except

/-- Runtime view of a descriptor whose fields have the types the code
actually uses them at: `createApp` passes `path` and `module` to the
module loader, looks `cls` up with `getattr`, tests `show`, iterates
`channel` subscribing the app to each named channel, and unpacks `args`
as keyword arguments.  Every claim about `createApp` concerns descriptors
that are well-typed in this sense; an ill-typed field would only fail
inside the external collaborators. -/
structure AppSpec where
  module : String
  cls : String
  path : String
  show' : Bool
  pos : String
  channel : List String
  args : Option (List (String × PyValue))
deriving DecidableEq

/-- Reads a `PyValue` as the string the code requires at that point. -/
def pyStr? : PyValue → Option String
  | .str s => Option.some s
  | _ => Option.none

/-- Reads a `PyValue` as a finite iterable of channel-name strings (the
source iterates `info.channel`, which the setup files provide as a list
or tuple of strings). -/
def pyStrSeq? : PyValue → Option (List String)
  | .list l => l.mapM pyStr?
  | .tuple l => l.mapM pyStr?
  | _ => Option.none

/-- Runtime view of an `AppInfo` whose fields are well-typed (see
`AppSpec`). -/
def toSpec (i : AppInfo) : Option AppSpec := do
  let m ← pyStr? i.module
  let c ← pyStr? i.cls
  let p ← pyStr? i.path
  let sh ← match i.show' with | .bool b => Option.some b | _ => Option.none
  let po ← pyStr? i.pos
  let ch ← pyStrSeq? i.channel
  let ar ← match i.args with
           | .none => Option.some Option.none
           | .dict l => Option.some (Option.some l)
           | _ => Option.none
  Option.some { module := m, cls := c, path := p, show' := sh, pos := po,
                channel := ch, args := ar }

/-- External environment of the manager: which module imports succeed
(`importOk path module`, with the search path extended by the directory
part of `path`), which class lookups succeed (`hasAttr module cls`),
which constructor calls return normally (`ctorOk module cls kwargs`,
for keyword dictionaries free of the always-supplied `name` and `parent`),
and how many frames an app instance exposes (`numFrames module cls`). -/
structure Env where
  importOk : String → String → Bool
  hasAttr : String → String → Bool
  ctorOk : String → String → List (String × PyValue) → Bool
  numFrames : String → String → Nat

/-- State of a `Swift` manager instance.  `dockWidgets` holds the keys of
`self._dockWidgets` (the attached dock widgets themselves are external),
`apps` is the instance table `self._apps` mapping app names to instance
identities, `subscribers` is `self._subscribers` mapping channel names to
sets of instance identities (sets are kept as duplicate-free lists in
insertion order; Python set iteration order is unspecified, and no claim
depends on it), and `nextId` supplies the identity of the next created
instance. -/
structure SwiftState where
  dockWidgets : List String
  apps : List (String × Nat)
  subscribers : List (String × List Nat)
  nextId : Nat
deriving DecidableEq

/-- The empty manager state: `Swift.__init__` with no app infos. -/
def initialState : SwiftState :=
  { dockWidgets := [], apps := [], subscribers := [], nextId := 0 }

/-- Set insertion `s.add(x)` for a set kept as a duplicate-free list. -/
def setAdd (l : List Nat) (a : Nat) : List Nat :=
  if a ∈ l then l else l ++ [a]

/-- The update `self._subscribers[ch].add(aid)` on a `defaultdict(set)`:
a missing channel gets a fresh singleton entry at the end, an existing
one has `aid` added to its set. -/
def subsAdd (subs : List (String × List Nat)) (ch : String) (aid : Nat) :
    List (String × List Nat) :=
  match subs with
  | [] => [(ch, [aid])]
  | p :: t => if p.1 = ch then (p.1, setAdd p.2 aid) :: t else p :: subsAdd t ch aid

/-- The read `self._subscribers[ch]` seen as a pure lookup: the subscriber
set of `ch`, empty when the channel has no entry. -/
def subsGet (subs : List (String × List Nat)) (ch : String) : List Nat :=
  match subs with
  | [] => []
  | p :: t => if p.1 = ch then p.2 else subsGet t ch

/-- The entry-creating side effect of evaluating `self._subscribers[ch]`
on a `defaultdict(set)`: a missing channel gains an empty entry. -/
def subsEnsure (subs : List (String × List Nat)) (ch : String) :
    List (String × List Nat) :=
  match subs with
  | [] => [(ch, [])]
  | p :: t => if p.1 = ch then p :: t else p :: subsEnsure t ch

/-- Dictionary write `d[k] = v` for the instance table. -/
def assocSet (l : List (String × Nat)) (k : String) (v : Nat) : List (String × Nat) :=
  match l with
  | [] => [(k, v)]
  | p :: t => if p.1 = k then (k, v) :: t else p :: assocSet t k v

/-- Dictionary read `d.get(k)` for the instance table. -/
def assocGet? (l : List (String × Nat)) (k : String) : Option Nat :=
  match l with
  | [] => Option.none
  | p :: t => if p.1 = k then Option.some p.2 else assocGet? t k

/-- Key removal, the mutation part of `d.pop(k)`, for the instance
table. -/
def assocRemove (l : List (String × Nat)) (k : String) : List (String × Nat) :=
  match l with
  | [] => []
  | p :: t => if p.1 = k then t else p :: assocRemove t k

/-- Membership and removal for the dock-widget key list. -/
def strRemove (l : List String) (k : String) : List String :=
  match l with
  | [] => []
  | s :: t => if s = k then t else s :: strRemove t k

/-- Key-set insertion `d[k] = v` for the dock-widget dictionary, of which
only the key set is modelled. -/
def dockAdd (l : List String) (k : String) : List String :=
  if k ∈ l then l else l ++ [k]

/-- First failure, if any, of the pre-mutation phase of
`Swift.createApp` (lines 137-144 of `swift/swift.py`): the import inside
the `_add_to_path` scope, the `getattr` for the class, and the
constructor call `cls(name, parent=self, **info.args)` respectively
`cls(name, parent=self)`.

Modelled from the spec: the app class constructor itself lives in
`swift/app.py`, which is absent from the sources (only its tests and
callers are present); per the spec it is a constructible type accepting a
unique `name` string, an optional owning-context reference (`parent`) and
optional named construction arguments.  CPython call semantics for such a
callee make `cls(name, parent=self, **args)` raise
`TypeError: got multiple values` when `args` itself contains a `parent`
key (detected while merging the keyword dictionaries) or a `name` key
(detected while binding the positional `name`); the `parent` collision is
detected first. -/
def createCheck (env : Env) (spec : AppSpec) : Option PyError :=
  if !(env.importOk spec.path spec.module) then Option.some .importError
  else if !(env.hasAttr spec.module spec.cls) then Option.some .attributeError
  else
    match spec.args with
    | Option.none =>
        if env.ctorOk spec.module spec.cls [] then Option.none
        else Option.some .ctorError
    | Option.some l =>
        if l.any (fun p => p.1 = "parent") then Option.some (.multipleValues "parent")
        else if l.any (fun p => p.1 = "name") then Option.some (.multipleValues "name")
        else if env.ctorOk spec.module spec.cls l then Option.none
        else Option.some .ctorError

/-- Mutation phase of `Swift.createApp` (lines 144-159): connect the
broadcast signal (external), add the new instance to the subscriber set
of every channel in `info.channel`, attach one dock widget per frame when
`info.show` holds (recording the name under `self._dockWidgets` exactly
when there is at least one frame), and finally record the instance in
`self._apps[name]`. -/
def createApply (env : Env) (name : String) (spec : AppSpec) (s : SwiftState) :
    SwiftState :=
  let aid := s.nextId
  { dockWidgets :=
      if spec.show' && decide (0 < env.numFrames spec.module spec.cls) then
        dockAdd s.dockWidgets name
      else s.dockWidgets
    apps := assocSet s.apps name aid
    subscribers := spec.channel.foldl (fun acc ch => subsAdd acc ch aid) s.subscribers
    nextId := s.nextId + 1 }

/-- The method `Swift.createApp` (lines 130-159): the pre-mutation phase
may raise, leaving the state untouched; otherwise the mutation phase
runs to completion. -/
def createApp (env : Env) (name : String) (spec : AppSpec) (s : SwiftState) :
    SwiftState × Except PyError Unit :=
  match createCheck env spec with
  | Option.some e => (s, .error e)
  | Option.none => (createApply env name spec s, .ok ())

/-- The method `Swift.destroyApp` (lines 161-172): pop the dock widget
entry (`KeyError` when the name has none — this happens for every app
created with `show=False` or with no frames), pop the instance table
entry, and discard the instance from every subscriber set.  The dock
widget removal precedes the instance-table pop, so a failing second pop
leaves the dock entry already removed. -/
def destroyApp (name : String) (s : SwiftState) : SwiftState × Except PyError Unit :=
  if name ∈ s.dockWidgets then
    match assocGet? s.apps name with
    | Option.some aid =>
        ({ dockWidgets := strRemove s.dockWidgets name
           apps := assocRemove s.apps name
           subscribers := s.subscribers.map
             (fun p => (p.1, p.2.filter (fun x => !(x == aid))))
           nextId := s.nextId }, .ok ())
    | Option.none =>
        ({ s with dockWidgets := strRemove s.dockWidgets name }, .error .keyError)
  else (s, .error .keyError)

/-- One action of the system-call loop of `Swift._call_system` (lines
207-214).  A `create` action reads `contents["name"]` and
`contents["info"]` (raising `KeyError` on a missing key and `TypeError`
when `contents` is not a mapping), builds `AppInfo(**contents["info"])`
and calls `createApp`; the well-typedness reading `toSpec` of the built
descriptor, and the string reading of the name, stand for the uses those
values are put to inside `createApp` and the Qt layer.  A `destroy`
action calls `destroyApp` on its contents.  Any other action key is
printed and skipped, leaving the state unchanged and raising nothing. -/
def doAction (env : Env) (action : String) (contents : PyValue) (s : SwiftState) :
    SwiftState × Except PyError Unit :=
  if action = "create" then
    match contents with
    | .dict l =>
      match lookupPy l "name" with
      | Option.some nv =>
        match lookupPy l "info" with
        | Option.some (.dict kw) =>
          match mkAppInfo kw with
          | .ok info =>
            match pyStr? nv, toSpec info with
            | Option.some n, Option.some spec => createApp env n spec s
            | _, _ => (s, .error .typeError)
          | .error e => (s, .error e)
        | Option.some _ => (s, .error .typeError)
        | Option.none => (s, .error .keyError)
      | Option.none => (s, .error .keyError)
    | _ => (s, .error .typeError)
  else if action = "destroy" then
    match pyStr? contents with
    | Option.some n => destroyApp n s
    | Option.none => (s, .error .keyError)
  else (s, .ok ())

/-- The action loop of `Swift._call_system`: the decoded mapping is
traversed in insertion order, each action running on the state left by
the previous one; an exception escaping one action aborts the loop and
propagates, keeping the mutations already made. -/
def execActions (env : Env) (l : List (String × PyValue)) (s : SwiftState) :
    SwiftState × Except PyError Unit :=
  match l with
  | [] => (s, .ok ())
  | (a, c) :: rest =>
    match doAction env a c s with
    | (s1, .ok _) => execActions env rest s1
    | (s1, .error e) => (s1, .error e)

/-- A broadcast message.  The source carries messages as raw strings and
only ever inspects them through `json.loads`, so a message is modelled by
its JSON parse status: a well-formed text by its parse tree, a malformed
one opaquely.  Subscribers receive the message value itself, which stands
for the unmodified raw text. -/
inductive MsgBody : Type where
  | json (j : PyValue) : MsgBody
  | malformed (raw : String) : MsgBody
deriving DecidableEq

/-- The decode step `msg = json.loads(msg)` of `Swift._call_system`
(line 206): a malformed text raises `json.JSONDecodeError`. -/
def decodeMsg : MsgBody → Except PyError PyValue
  | .json j => .ok (jsonLoad j)
  | .malformed _ => .error .jsonDecodeError

/-- The method `Swift._call_system` (lines 189-214): decode the message
text, then iterate `msg.items()` running each action in order.  A decoded
value that is not a mapping has no `.items` and raises
`AttributeError`. -/
def callSystem (env : Env) (m : MsgBody) (s : SwiftState) :
    SwiftState × Except PyError Unit :=
  match decodeMsg m with
  | .error e => (s, .error e)
  | .ok (.dict l) => execActions env l s
  | .ok _ => (s, .error .attributeError)

/-- One delivery invocation `app.received.emit(channelName, msg)`:
the receiving instance, the channel name and the unmodified message. -/
structure Delivery where
  target : Nat
  channel : String
  message : MsgBody
deriving DecidableEq

/-- The slot `Swift._broadcast` (lines 174-187): when the channel is the
reserved name `"swift"` the message is first handled as a system call (an
exception escaping it propagates to the caller and skips the fan-out);
then `self._subscribers[channelName]` is evaluated (creating an empty
entry for an unknown channel, as `_subscribers` is a `defaultdict`) and
the message is emitted once to every instance in that set. -/
def broadcast (env : Env) (ch : String) (m : MsgBody) (s : SwiftState) :
    SwiftState × Except PyError (List Delivery) :=
  let step := if ch = "swift" then callSystem env m s else (s, .ok ())
  match step with
  | (s1, .error e) => (s1, .error e)
  | (s1, .ok _) =>
    let s2 : SwiftState := { s1 with subscribers := subsEnsure s1.subscribers ch }
    (s2, .ok ((subsGet s2.subscribers ch).map
      (fun a => { target := a, channel := ch, message := m })))

/-- The context manager `_add_to_path` (lines 217-232) around a body (for
`createApp`, the `importlib.import_module` call): `old_path = sys.path`,
install a copy of the old path with the new entry inserted at the front,
run the body — which sees that extended path, may itself change the path,
and may raise — and in a `finally` block restore `sys.path = old_path`.
The returned pair is the outcome of the body and the final search
path. -/
def addToPathRun (syspath : List String) (p : String)
    (body : List String → Except PyError (List String)) :
    Except PyError Unit × List String :=
  match body (p :: syspath) with
  | .ok _ => (.ok (), syspath)
  | .error e => (.error e, syspath)

theorem subsGet_subsEnsure (subs : List (String × List Nat)) (ch : String) :
    subsGet (subsEnsure subs ch) ch = subsGet subs ch := by
  induction subs with
  | nil => simp [subsEnsure, subsGet]
  | cons p t ih =>
      by_cases h : p.1 = ch
      · simp [subsEnsure, subsGet, h]
      · simp [subsEnsure, subsGet, h, ih]

theorem subsGet_map_filter (subs : List (String × List Nat)) (ch : String)
    (f : Nat → Bool) :
    subsGet (subs.map (fun p => (p.1, p.2.filter f))) ch = (subsGet subs ch).filter f := by
  induction subs with
  | nil => simp [subsGet]
  | cons p t ih =>
      by_cases h : p.1 = ch
      · simp [subsGet, h]
      · simp [subsGet, h, ih]

theorem mem_setAdd_self (l : List Nat) (a : Nat) : a ∈ setAdd l a := by
  by_cases h : a ∈ l <;> simp [setAdd, h]

theorem mem_setAdd_of_mem (l : List Nat) (a b : Nat) (h : a ∈ l) : a ∈ setAdd l b := by
  by_cases hb : b ∈ l <;> simp [setAdd, hb, h]

theorem mem_subsGet_subsAdd_self (subs : List (String × List Nat)) (ch : String) (a : Nat) :
    a ∈ subsGet (subsAdd subs ch a) ch := by
  induction subs with
  | nil => simp [subsAdd, subsGet]
  | cons p t ih =>
      by_cases h : p.1 = ch
      · simp [subsAdd, subsGet, h, mem_setAdd_self]
      · simp [subsAdd, subsGet, h, ih]

theorem subsGet_cons (p : String × List Nat) (t : List (String × List Nat)) (ch : String) :
    subsGet (p :: t) ch = if p.1 = ch then p.2 else subsGet t ch := rfl

theorem mem_subsGet_subsAdd_of_mem (subs : List (String × List Nat)) (ch ch2 : String)
    (a b : Nat) (h : a ∈ subsGet subs ch) : a ∈ subsGet (subsAdd subs ch2 b) ch := by
  induction subs with
  | nil => simp [subsGet] at h
  | cons p t ih =>
      rw [subsAdd]
      by_cases h2 : p.1 = ch2
      · rw [if_pos h2]
        rw [subsGet_cons] at h ⊢
        dsimp only at h ⊢
        by_cases h1 : p.1 = ch
        · rw [if_pos h1] at h ⊢
          exact mem_setAdd_of_mem _ _ _ h
        · rw [if_neg h1] at h ⊢
          exact h
      · rw [if_neg h2]
        rw [subsGet_cons] at h ⊢
        by_cases h1 : p.1 = ch
        · rw [if_pos h1] at h ⊢; exact h
        · rw [if_neg h1] at h ⊢; exact ih h

theorem mem_subsGet_foldl_subsAdd_of_mem (l : List String)
    (subs : List (String × List Nat)) (ch : String) (a b : Nat)
    (h : a ∈ subsGet subs ch) :
    a ∈ subsGet (l.foldl (fun acc c => subsAdd acc c b) subs) ch := by
  induction l generalizing subs with
  | nil => simpa using h
  | cons c t ih =>
      simp only [List.foldl_cons]
      exact ih _ (mem_subsGet_subsAdd_of_mem _ _ _ _ _ h)

theorem mem_subsGet_foldl_subsAdd (l : List String)
    (subs : List (String × List Nat)) (ch : String) (a : Nat) (h : ch ∈ l) :
    a ∈ subsGet (l.foldl (fun acc c => subsAdd acc c a) subs) ch := by
  induction l generalizing subs with
  | nil => simp at h
  | cons c t ih =>
      simp only [List.foldl_cons]
      rcases List.mem_cons.mp h with h1 | h1
      · subst h1
        exact mem_subsGet_foldl_subsAdd_of_mem _ _ _ _ _
          (mem_subsGet_subsAdd_self subs ch a)
      · exact ih _ h1

theorem mem_keys_assocSet (l : List (String × Nat)) (k : String) (v : Nat) :
    k ∈ (assocSet l k v).map Prod.fst := by
  induction l with
  | nil => simp [assocSet]
  | cons p t ih =>
      by_cases h : p.1 = k
      · simp [assocSet, h]
      · simp only [assocSet, h, if_neg, not_false_iff, List.map_cons, List.mem_cons]
        exact Or.inr ih

theorem createApp_ok_elim (env : Env) (name : String) (spec : AppSpec)
    (s s1 : SwiftState) (u : Unit) (h : createApp env name spec s = (s1, .ok u)) :
    createCheck env spec = Option.none ∧ s1 = createApply env name spec s := by
  unfold createApp at h
  cases hc : createCheck env spec with
  | some e => rw [hc] at h; simp at h
  | none => rw [hc] at h; simp at h; exact ⟨rfl, h.symm⟩

theorem destroyApp_ok_elim (name : String) (s sd : SwiftState) (u : Unit)
    (h : destroyApp name s = (sd, .ok u)) :
    ∃ aid, assocGet? s.apps name = Option.some aid ∧
      sd = { dockWidgets := strRemove s.dockWidgets name
             apps := assocRemove s.apps name
             subscribers := s.subscribers.map
               (fun p => (p.1, p.2.filter (fun x => !(x == aid))))
             nextId := s.nextId } := by
  unfold destroyApp at h
  by_cases hd : name ∈ s.dockWidgets
  · rw [if_pos hd] at h
    cases ha : assocGet? s.apps name with
    | some aid =>
        refine ⟨aid, rfl, ?_⟩
        rw [ha] at h
        simp at h
        exact h.symm
    | none => rw [ha] at h; simp at h
  · rw [if_neg hd] at h; simp at h

theorem updateAssocPy_not_mem (l : List (String × PyValue)) (k : String) (v : PyValue)
    (h : k ∉ l.map Prod.fst) : updateAssocPy l k v = l ++ [(k, v)] := by
  induction l with
  | nil => rfl
  | cons p t ih =>
      simp only [List.map_cons, List.mem_cons] at h
      push_neg at h
      rw [updateAssocPy, if_neg (fun he => h.1 he.symm), ih h.2]
      rfl

theorem foldl_updateAssocPy_nodup :
    ∀ (l acc : List (String × PyValue)),
      (∀ p ∈ l, p.1 ∉ acc.map Prod.fst) → (l.map Prod.fst).Nodup →
      l.foldl (fun acc p => updateAssocPy acc p.1 p.2) acc = acc ++ l
  | [], acc, _, _ => by simp
  | (k, v) :: t, acc, h1, h2 => by
      simp only [List.foldl_cons]
      rw [updateAssocPy_not_mem acc k v (h1 (k, v) (by simp))]
      rw [foldl_updateAssocPy_nodup t (acc ++ [(k, v)]) ?_ ?_]
      · simp
      · intro p hp
        simp only [List.map_append, List.mem_append, List.map_cons, List.map_nil,
          List.mem_singleton, not_or]
        refine ⟨h1 p (List.mem_cons_of_mem _ hp), ?_⟩
        simp only [List.map_cons, List.nodup_cons] at h2
        intro he
        exact h2.1 (he ▸ List.mem_map_of_mem Prod.fst hp)
      · simp only [List.map_cons, List.nodup_cons] at h2
        exact h2.2

theorem dictFromPairs_eq_self (l : List (String × PyValue))
    (h : (l.map Prod.fst).Nodup) : dictFromPairs l = l := by
  unfold dictFromPairs
  rw [foldl_updateAssocPy_nodup l [] (by simp) h]
  simp

theorem mkAppInfo_fields (m c p sh po ch ar : PyValue) :
    mkAppInfo [("module", m), ("cls", c), ("path", p), ("show", sh), ("pos", po),
               ("channel", ch), ("args", ar)] =
      .ok { module := m, cls := c, path := p, show' := sh, pos := po,
            channel := ch, args := ar } := rfl

/-- C1, amended: descriptor serialization and parsing are exact inverses on
every descriptor whose field values are JSON-stable — in particular the
`channel` field must be supplied as a list rather than the dataclass
default `()`, since every tuple serializes to a JSON array and parses back
as a list.  The original all-omitted-to-defaults case is refuted by
`strinfo_parse_default_channel_mismatch`. -/
theorem parse_strinfo_roundtrip_of_stable (d : AppInfo)
    (h1 : jsonStable d.module) (h2 : jsonStable d.cls) (h3 : jsonStable d.path)
    (h4 : jsonStable d.show') (h5 : jsonStable d.pos) (h6 : jsonStable d.channel)
    (h7 : jsonStable d.args) :
    parse (strinfo d) = .ok d := by
  obtain ⟨m, c, p, sh, po, ch, ar⟩ := d
  simp only [jsonStable] at h1 h2 h3 h4 h5 h6 h7
  unfold parse strinfo
  simp only [jsonDump, jsonDumpPairs, jsonLoad, jsonLoadPairs]
  rw [h1, h2, h3, h4, h5, h6, h7]
  rw [dictFromPairs_eq_self _ (by simp)]
  exact mkAppInfo_fields m c p sh po ch ar

/-- C1, counterexample: for the valid descriptor with all optional fields
omitted to their defaults, parsing the serialized form does not give the
descriptor back — the default `channel=()` is a tuple, `strinfo` writes it
as the JSON array `[]`, `parse` reads that back as the list `[]`, and in
Python `() == []` is `False`, so the dataclass equality fails. -/
theorem strinfo_parse_default_channel_mismatch :
    parse (strinfo { module := PyValue.str "m", cls := PyValue.str "c" }) ≠
      Except.ok { module := PyValue.str "m", cls := PyValue.str "c" } := by decide

/-- C1, witness for the amended round trip at a concrete descriptor with
every optional field present and JSON-stable. -/
theorem parse_strinfo_roundtrip_of_stable_witness :
    parse (strinfo { module := PyValue.str "m", cls := PyValue.str "c",
                     path := PyValue.str "p", show' := PyValue.bool false,
                     pos := PyValue.str "left",
                     channel := PyValue.list [PyValue.str "a", PyValue.str "b"],
                     args := PyValue.dict [("k", PyValue.int 3)] }) =
      Except.ok { module := PyValue.str "m", cls := PyValue.str "c",
                  path := PyValue.str "p", show' := PyValue.bool false,
                  pos := PyValue.str "left",
                  channel := PyValue.list [PyValue.str "a", PyValue.str "b"],
                  args := PyValue.dict [("k", PyValue.int 3)] } :=
  parse_strinfo_roundtrip_of_stable _ (by decide) (by decide) (by decide)
    (by decide) (by decide) (by decide) (by decide)

theorem lookupPy_eq_none (l : List (String × PyValue)) (k : String)
    (h : k ∉ l.map Prod.fst) : lookupPy l k = Option.none := by
  induction l with
  | nil => rfl
  | cons p t ih =>
      simp only [List.map_cons, List.mem_cons] at h
      push_neg at h
      rw [lookupPy, if_neg (fun he => h.1 he.symm), ih h.2]

/-- C3: constructing a descriptor from a mapping fails with the
unexpected-keyword variant of `TypeError` (the specified
`UnrecognizedFieldError`) whenever the mapping has a key that is not a
dataclass field, and — when every key is a field — fails with the
missing-arguments variant (the specified `MissingFieldError`) naming only
required keys whenever `module` or `cls` (called `className` in the spec)
is absent.  When both conditions hold at once CPython reports the
unexpected keyword, which is why the missing-key part assumes all keys
are fields. -/
theorem mkAppInfo_unknown_and_missing_key_errors :
    (∀ kwargs : List (String × PyValue),
       (∃ p ∈ kwargs, p.1 ∉ appInfoFields) →
       ∃ k, k ∈ kwargs.map Prod.fst ∧ k ∉ appInfoFields ∧
         mkAppInfo kwargs = .error (.unexpectedKeyword k)) ∧
    (∀ kwargs : List (String × PyValue),
       (∀ p ∈ kwargs, p.1 ∈ appInfoFields) →
       ("module" ∉ kwargs.map Prod.fst ∨ "cls" ∉ kwargs.map Prod.fst) →
       ∃ ks, ks ≠ [] ∧ (∀ k ∈ ks, k = "module" ∨ k = "cls") ∧
         mkAppInfo kwargs = .error (.missingArguments ks)) := by
  constructor
  · intro kwargs h
    have hsome : (kwargs.find? (fun p => !(appInfoFields.contains p.1))).isSome := by
      rw [List.find?_isSome]
      obtain ⟨p, hp, hnp⟩ := h
      exact ⟨p, hp, by simpa using hnp⟩
    obtain ⟨q, hq⟩ := Option.isSome_iff_exists.mp hsome
    refine ⟨q.1, List.mem_map_of_mem Prod.fst (List.mem_of_find?_eq_some hq), ?_, ?_⟩
    · have := List.find?_some hq
      simpa using this
    · unfold mkAppInfo
      rw [hq]
  · intro kwargs hall hmiss
    have hfind : kwargs.find? (fun p => !(appInfoFields.contains p.1)) = Option.none := by
      rw [List.find?_eq_none]
      intro p hp
      simpa using hall p hp
    unfold mkAppInfo
    rw [hfind]
    rcases hmiss with hm | hc
    · rw [lookupPy_eq_none _ _ hm]
      cases hcl : lookupPy kwargs "cls" with
      | some c => exact ⟨["module"], by simp, by simp, rfl⟩
      | none => exact ⟨["module", "cls"], by simp, by simp, rfl⟩
    · rw [lookupPy_eq_none _ _ hc]
      cases hmo : lookupPy kwargs "module" with
      | some m => exact ⟨["cls"], by simp, by simp, rfl⟩
      | none => exact ⟨["module", "cls"], by simp, by simp, rfl⟩

/-- C3, witness: a mapping with the unknown key `bogus` is rejected as an
unexpected keyword, and a mapping with only `module` is rejected for
missing arguments. -/
theorem mkAppInfo_unknown_and_missing_key_errors_witness :
    (∃ k, k ∈ ([("bogus", PyValue.int 1)] : List (String × PyValue)).map Prod.fst ∧
       k ∉ appInfoFields ∧
       mkAppInfo [("bogus", PyValue.int 1)] = .error (.unexpectedKeyword k)) ∧
    (∃ ks, ks ≠ [] ∧ (∀ k ∈ ks, k = "module" ∨ k = "cls") ∧
       mkAppInfo [("module", PyValue.str "m")] = .error (.missingArguments ks)) :=
  ⟨mkAppInfo_unknown_and_missing_key_errors.1 _ (by decide),
   mkAppInfo_unknown_and_missing_key_errors.2 _ (by decide) (by decide)⟩

/-- C9: the module search path after `_add_to_path` equals the search path
before it, on every exit path — both when the body (the module import)
returns normally and when it raises, and even if the body itself changed
the search path, because the `finally` block unconditionally reinstates
the saved original. -/
theorem addToPathRun_restores_search_path (syspath : List String) (p : String)
    (body : List String → Except PyError (List String)) :
    (addToPathRun syspath p body).2 = syspath := by
  unfold addToPathRun
  cases body (p :: syspath) <;> rfl

/-- Environment in which every import, class lookup and constructor call
succeeds and every app exposes exactly one frame. -/
def env0 : Env :=
  { importOk := fun _ _ => true
    hasAttr := fun _ _ => true
    ctorOk := fun _ _ _ => true
    numFrames := fun _ _ => 1 }

/-- Runtime descriptor with `show=False` and otherwise default fields. -/
def specUnshown : AppSpec :=
  { module := "m", cls := "c", path := ".", show' := false, pos := "",
    channel := [], args := Option.none }

/-- C2: the claim fails on the code.  Creating `"x"` from a descriptor
with `show=False` succeeds but records no dock widget, so the subsequent
`destroyApp("x")` hits `self._dockWidgets.pop(name)` first and raises
`KeyError`, leaving `"x"` in the instance table — against the claim (and
against the intent witnessed by the repository test `test_destroy_app`,
which destroys an app created with `show=False` and expects it gone). -/
theorem destroyApp_keyError_on_unshown_app :
    createApp env0 "x" specUnshown initialState =
      ({ dockWidgets := [], apps := [("x", 0)], subscribers := [], nextId := 1 },
       Except.ok ()) ∧
    destroyApp "x"
        { dockWidgets := [], apps := [("x", 0)], subscribers := [], nextId := 1 } =
      ({ dockWidgets := [], apps := [("x", 0)], subscribers := [], nextId := 1 },
       Except.error PyError.keyError) := by decide

/-- Runtime descriptor whose `args` mapping contains the key `name`. -/
def specArgsName : AppSpec :=
  { module := "m", cls := "c", path := ".", show' := true, pos := "",
    channel := [], args := Option.some [("name", PyValue.str "y")] }

/-- Runtime descriptor whose `args` mapping contains the key `parent`. -/
def specArgsParent : AppSpec :=
  { module := "m", cls := "c", path := ".", show' := true, pos := "",
    channel := [], args := Option.some [("parent", PyValue.none)] }

/-- C8: the claim fails on the code.  `createApp` invokes
`cls(name, parent=self, **info.args)` without excluding `name` or `parent`
from `info.args`, so an `args` mapping containing either key makes the
call raise `TypeError: got multiple values` and creation fails with no
state change — against the claim and against the `AppInfo` docstring,
which promises such keys are ignored. -/
theorem createApp_args_name_parent_collision :
    createApp env0 "x" specArgsName initialState =
      (initialState, Except.error (PyError.multipleValues "name")) ∧
    createApp env0 "x" specArgsParent initialState =
      (initialState, Except.error (PyError.multipleValues "parent")) := by decide

/-- C4, amended: broadcasting a malformed message body on the reserved
channel raises the JSON decode error to the caller of broadcast — it is
not logged-and-skipped — and the malformed command leaves the instance
table and the subscription table unchanged (the decode failure precedes
every mutation and also skips the fan-out). -/
theorem broadcast_malformed_propagates_decode_error (env : Env) (s : SwiftState)
    (raw : String) :
    broadcast env "swift" (.malformed raw) s = (s, .error .jsonDecodeError) := rfl

/-- C4, counterexample: at the concrete malformed body `"not json"` the
broadcast on the reserved channel returns by raising the decode error,
refuting the claim that a malformed body is logged and skipped without
raising. -/
theorem broadcast_malformed_raises_concrete :
    broadcast env0 "swift" (MsgBody.malformed "not json") initialState =
      (initialState, Except.error PyError.jsonDecodeError) := by decide

theorem broadcast_of_ok (env : Env) (ch : String) (m : MsgBody) (s s1 : SwiftState)
    (h : (if ch = "swift" then callSystem env m s else (s, .ok ())) = (s1, .ok ())) :
    broadcast env ch m s =
      ({ s1 with subscribers := subsEnsure s1.subscribers ch },
       .ok ((subsGet s1.subscribers ch).map
         (fun x => { target := x, channel := ch, message := m }))) := by
  unfold broadcast
  rw [h]
  dsimp only
  rw [subsGet_subsEnsure]

/-- C6: a broadcast on a non-reserved channel returns normally, delivers
the pair (channel, message) unmodified to each subscribed instance and to
nothing else — exactly one delivery per member of the subscriber set, and
zero deliveries without an error when the channel has no subscribers.
The only state effect is the lazy creation of an empty entry for a
previously unknown channel, which the `defaultdict` read performs. -/
theorem broadcast_fanout_exact (env : Env) (s : SwiftState) (ch : String) (m : MsgBody)
    (hch : ch ≠ "swift") :
    ∃ ds : List Delivery,
      broadcast env ch m s =
        ({ s with subscribers := subsEnsure s.subscribers ch }, .ok ds) ∧
      ds.map Delivery.target = subsGet s.subscribers ch ∧
      ds.length = (subsGet s.subscribers ch).length ∧
      (∀ d ∈ ds, d.channel = ch ∧ d.message = m) ∧
      (subsGet s.subscribers ch = [] → ds = []) := by
  refine ⟨(subsGet s.subscribers ch).map
    (fun x => { target := x, channel := ch, message := m }), ?_, ?_, ?_, ?_, ?_⟩
  · exact broadcast_of_ok env ch m s s (by rw [if_neg hch])
  · rw [List.map_map]
    exact List.map_id _
  · simp
  · intro d hd
    simp only [List.mem_map] at hd
    obtain ⟨x, _, hx⟩ := hd
    rw [← hx]
    exact ⟨rfl, rfl⟩
  · intro h0
    rw [h0]
    simp

/-- C6, witness: on a channel with two subscribers among three apps the
broadcast yields exactly the two deliveries. -/
theorem broadcast_fanout_exact_witness :
    ∃ ds : List Delivery,
      broadcast env0 "c" (MsgBody.malformed "msg")
          { dockWidgets := [], apps := [("a", 0), ("b", 1), ("d", 2)],
            subscribers := [("c", [0, 1])], nextId := 3 } =
        ({ dockWidgets := [], apps := [("a", 0), ("b", 1), ("d", 2)],
            subscribers := subsEnsure [("c", [0, 1])] "c", nextId := 3 }, .ok ds) ∧
      ds.map Delivery.target = subsGet [("c", [0, 1])] "c" ∧
      ds.length = (subsGet [("c", [0, 1])] "c").length ∧
      (∀ d ∈ ds, d.channel = "c" ∧ d.message = MsgBody.malformed "msg") ∧
      (subsGet [("c", [0, 1])] "c" = [] → ds = []) :=
  broadcast_fanout_exact env0
    { dockWidgets := [], apps := [("a", 0), ("b", 1), ("d", 2)],
      subscribers := [("c", [0, 1])], nextId := 3 }
    "c" (MsgBody.malformed "msg") (by decide)

/-- C7: an action key other than `create` and `destroy` is skipped: the
action itself performs no state change and raises nothing, it does not
abort the remaining actions of the same message, and a reserved-channel
broadcast consisting of such an action returns normally, fanning the raw
text out from an otherwise unchanged state (only the lazy empty
`defaultdict` entry for the reserved channel may appear). -/
theorem unknown_action_logged_and_skipped (env : Env) (s : SwiftState) (a : String)
    (v jv : PyValue) (rest : List (String × PyValue))
    (h1 : a ≠ "create") (h2 : a ≠ "destroy") :
    doAction env a v s = (s, .ok ()) ∧
    execActions env ((a, v) :: rest) s = execActions env rest s ∧
    broadcast env "swift" (.json (.dict [(a, jv)])) s =
      ({ s with subscribers := subsEnsure s.subscribers "swift" },
       .ok ((subsGet s.subscribers "swift").map
         (fun x => { target := x, channel := "swift",
                     message := MsgBody.json (.dict [(a, jv)]) }))) := by
  have hact : ∀ v' : PyValue, doAction env a v' s = (s, .ok ()) := by
    intro v'
    unfold doAction
    rw [if_neg h1, if_neg h2]
  refine ⟨hact v, ?_, ?_⟩
  · rw [execActions, hact v]
  · refine broadcast_of_ok env "swift" (.json (.dict [(a, jv)])) s s ?_
    rw [if_pos rfl]
    unfold callSystem decodeMsg
    simp only [jsonLoad, jsonLoadPairs]
    show execActions env (dictFromPairs [(a, jsonLoad jv)]) s = (s, .ok ())
    show execActions env [(a, jsonLoad jv)] s = (s, .ok ())
    rw [execActions, hact (jsonLoad jv)]
    rfl

/-- C7, witness: the action key `bogus` with arbitrary contents is skipped
on a state carrying one reserved-channel subscriber. -/
theorem unknown_action_logged_and_skipped_witness :
    doAction env0 "bogus" (PyValue.int 1)
        { dockWidgets := [], apps := [("a", 0)],
          subscribers := [("swift", [0])], nextId := 1 } =
      ({ dockWidgets := [], apps := [("a", 0)],
         subscribers := [("swift", [0])], nextId := 1 }, .ok ()) ∧
    execActions env0 [("bogus", PyValue.int 1)]
        { dockWidgets := [], apps := [("a", 0)],
          subscribers := [("swift", [0])], nextId := 1 } =
      execActions env0 []
        { dockWidgets := [], apps := [("a", 0)],
          subscribers := [("swift", [0])], nextId := 1 } ∧
    broadcast env0 "swift" (.json (.dict [("bogus", PyValue.int 1)]))
        { dockWidgets := [], apps := [("a", 0)],
          subscribers := [("swift", [0])], nextId := 1 } =
      ({ dockWidgets := [], apps := [("a", 0)],
         subscribers := subsEnsure [("swift", [0])] "swift", nextId := 1 },
       .ok ((subsGet [("swift", [0])] "swift").map
         (fun x => { target := x, channel := "swift",
                     message := MsgBody.json (.dict [("bogus", PyValue.int 1)]) }))) :=
  unknown_action_logged_and_skipped env0
    { dockWidgets := [], apps := [("a", 0)],
      subscribers := [("swift", [0])], nextId := 1 }
    "bogus" (PyValue.int 1) (PyValue.int 1) [] (by decide) (by decide)

/-- System-call message carrying a single `create` action for the given
name and descriptor trees, as in
`{"create": {"name": ..., "info": ...}}`. -/
def createMsg (jn jinfo : PyValue) : MsgBody :=
  .json (.dict [("create", .dict [("name", jn), ("info", jinfo)])])

/-- System-call message carrying a `create` action followed by a
`destroy` action, as in
`{"create": {"name": ..., "info": ...}, "destroy": ...}`. -/
def createDestroyMsg (jn jinfo jd : PyValue) : MsgBody :=
  .json (.dict [("create", .dict [("name", jn), ("info", jinfo)]), ("destroy", jd)])

theorem callSystem_ok_of (env : Env) (m : MsgBody) (s s1 : SwiftState)
    (l : List (String × PyValue))
    (hdec : decodeMsg m = .ok (.dict l))
    (hex : execActions env l s = (s1, .ok ())) :
    callSystem env m s = (s1, .ok ()) := by
  unfold callSystem
  rw [hdec]
  exact hex

theorem doAction_create_ok (env : Env) (s s1 : SwiftState) (n2 : String)
    (kw : List (String × PyValue)) (info : AppInfo) (spec : AppSpec)
    (hmk : mkAppInfo kw = .ok info)
    (hspec : toSpec info = Option.some spec)
    (hcreate : createApp env n2 spec s = (s1, .ok ())) :
    doAction env "create" (.dict [("name", .str n2), ("info", .dict kw)]) s =
      (s1, .ok ()) := by
  unfold doAction
  simp [lookupPy, pyStr?, hmk, hspec, hcreate]

theorem doAction_destroy_ok (env : Env) (s sd : SwiftState) (n : String)
    (hdes : destroyApp n s = (sd, .ok ())) :
    doAction env "destroy" (.str n) s = (sd, .ok ()) := by
  unfold doAction
  rw [if_neg (by decide), if_pos rfl]
  exact hdes

theorem decodeMsg_createMsg (jn jinfo : PyValue) (n2 : String)
    (kw : List (String × PyValue))
    (hjn : jsonLoad jn = .str n2) (hji : jsonLoad jinfo = .dict kw) :
    decodeMsg (createMsg jn jinfo) =
      .ok (.dict [("create", .dict [("name", PyValue.str n2), ("info", .dict kw)])]) := by
  unfold decodeMsg createMsg
  simp only [jsonLoad, jsonLoadPairs]
  rw [hjn, hji]
  rfl

theorem decodeMsg_createDestroyMsg (jn jinfo jd : PyValue) (n2 nd : String)
    (kw : List (String × PyValue))
    (hjn : jsonLoad jn = .str n2) (hji : jsonLoad jinfo = .dict kw)
    (hjd : jsonLoad jd = .str nd) :
    decodeMsg (createDestroyMsg jn jinfo jd) =
      .ok (.dict [("create", .dict [("name", PyValue.str n2), ("info", .dict kw)]),
                  ("destroy", PyValue.str nd)]) := by
  unfold decodeMsg createDestroyMsg
  simp only [jsonLoad, jsonLoadPairs]
  rw [hjn, hji, hjd]
  rfl

theorem callSystem_create_ok (env : Env) (s s1 : SwiftState) (n2 : String)
    (jn jinfo : PyValue) (kw : List (String × PyValue)) (info : AppInfo) (spec : AppSpec)
    (hjn : jsonLoad jn = .str n2) (hji : jsonLoad jinfo = .dict kw)
    (hmk : mkAppInfo kw = .ok info) (hspec : toSpec info = Option.some spec)
    (hcreate : createApp env n2 spec s = (s1, .ok ())) :
    callSystem env (createMsg jn jinfo) s = (s1, .ok ()) := by
  refine callSystem_ok_of env _ s s1 _ (decodeMsg_createMsg jn jinfo n2 kw hjn hji) ?_
  rw [execActions, doAction_create_ok env s s1 n2 kw info spec hmk hspec hcreate]
  rfl

theorem callSystem_create_destroy_ok (env : Env) (s s1 s2 : SwiftState) (n2 nd : String)
    (jn jinfo jd : PyValue) (kw : List (String × PyValue)) (info : AppInfo) (spec : AppSpec)
    (hjn : jsonLoad jn = .str n2) (hji : jsonLoad jinfo = .dict kw)
    (hmk : mkAppInfo kw = .ok info) (hspec : toSpec info = Option.some spec)
    (hcreate : createApp env n2 spec s = (s1, .ok ()))
    (hjd : jsonLoad jd = .str nd)
    (hdes : destroyApp nd s1 = (s2, .ok ())) :
    callSystem env (createDestroyMsg jn jinfo jd) s = (s2, .ok ()) := by
  refine callSystem_ok_of env _ s s2 _
    (decodeMsg_createDestroyMsg jn jinfo jd n2 nd kw hjn hji hjd) ?_
  rw [execActions, doAction_create_ok env s s1 n2 kw info spec hmk hspec hcreate]
  show execActions env [("destroy", PyValue.str nd)] s1 = (s2, .ok ())
  rw [execActions, doAction_destroy_ok env s1 s2 nd hdes]
  rfl

theorem callSystem_destroy_ok (env : Env) (s sd : SwiftState) (n : String)
    (jn : PyValue)
    (hjn : jsonLoad jn = .str n)
    (hdes : destroyApp n s = (sd, .ok ())) :
    callSystem env (.json (.dict [("destroy", jn)])) s = (sd, .ok ()) := by
  refine callSystem_ok_of env _ s sd [("destroy", PyValue.str n)] ?_ ?_
  · unfold decodeMsg
    simp only [jsonLoad, jsonLoadPairs]
    rw [hjn]
    rfl
  · rw [execActions, doAction_destroy_ok env s sd n hdes]
    rfl

theorem map_target_map_mk (l : List Nat) (ch : String) (m : MsgBody) :
    (l.map (fun x => ({ target := x, channel := ch, message := m } : Delivery))).map
      Delivery.target = l := by
  rw [List.map_map]
  exact List.map_id _

/-- C5: when the reserved channel carries a well-formed system-call
message whose `create` action succeeds, the action is executed and
fan-out still happens: the broadcast returns normally with the created
name present in the instance table, and every subscriber of the reserved
channel (as of the post-action state) receives the raw message text
unmodified.  The second part shows the actions of one message running in
the order they appear in the mapping: in a
`{"create": ..., "destroy": ...}` message the `destroy` of the
just-created name succeeds because the `create` ran first, and fan-out
happens after both. -/
theorem broadcast_syscall_create_executes_and_fans_out
    (env : Env) (s s1 s2 : SwiftState) (n2 : String)
    (jn jinfo jd : PyValue) (kw : List (String × PyValue)) (info : AppInfo)
    (spec : AppSpec)
    (hjn : jsonLoad jn = .str n2)
    (hji : jsonLoad jinfo = .dict kw)
    (hmk : mkAppInfo kw = .ok info)
    (hspec : toSpec info = Option.some spec)
    (hcreate : createApp env n2 spec s = (s1, .ok ()))
    (hjd : jsonLoad jd = .str n2)
    (hdes : destroyApp n2 s1 = (s2, .ok ())) :
    (broadcast env "swift" (createMsg jn jinfo) s =
       ({ s1 with subscribers := subsEnsure s1.subscribers "swift" },
        .ok ((subsGet s1.subscribers "swift").map
          (fun x => { target := x, channel := "swift",
                      message := createMsg jn jinfo }))) ∧
     n2 ∈ (broadcast env "swift" (createMsg jn jinfo) s).1.apps.map Prod.fst) ∧
    broadcast env "swift" (createDestroyMsg jn jinfo jd) s =
      ({ s2 with subscribers := subsEnsure s2.subscribers "swift" },
       .ok ((subsGet s2.subscribers "swift").map
         (fun x => { target := x, channel := "swift",
                     message := createDestroyMsg jn jinfo jd }))) := by
  have hb := broadcast_of_ok env "swift" (createMsg jn jinfo) s s1
    (by rw [if_pos rfl]
        exact callSystem_create_ok env s s1 n2 jn jinfo kw info spec hjn hji hmk
          hspec hcreate)
  refine ⟨⟨hb, ?_⟩, ?_⟩
  · rw [hb]
    obtain ⟨-, hs1⟩ := createApp_ok_elim env n2 spec s s1 () hcreate
    rw [hs1]
    exact mem_keys_assocSet s.apps n2 s.nextId
  · exact broadcast_of_ok env "swift" (createDestroyMsg jn jinfo jd) s s2
      (by rw [if_pos rfl]
          exact callSystem_create_destroy_ok env s s1 s2 n2 n2 jn jinfo jd kw info
            spec hjn hji hmk hspec hcreate hjd hdes)

/-- C5, witness: on a manager owning app `"p"` subscribed to the reserved
channel, a create system call for `"n2"` with a default descriptor, and a
create-then-destroy message for the same name. -/
theorem broadcast_syscall_create_executes_and_fans_out_witness :
    (broadcast env0 "swift"
         (createMsg (PyValue.str "n2")
           (PyValue.dict [("module", PyValue.str "m"), ("cls", PyValue.str "c")]))
         { dockWidgets := ["p"], apps := [("p", 5)],
           subscribers := [("swift", [5])], nextId := 6 } =
       ({ dockWidgets := ["p", "n2"], apps := [("p", 5), ("n2", 6)],
          subscribers := subsEnsure [("swift", [5])] "swift", nextId := 7 },
        .ok ((subsGet [("swift", [5])] "swift").map
          (fun x => { target := x, channel := "swift",
                      message := createMsg (PyValue.str "n2")
                        (PyValue.dict [("module", PyValue.str "m"),
                                       ("cls", PyValue.str "c")]) }))) ∧
     "n2" ∈ (broadcast env0 "swift"
         (createMsg (PyValue.str "n2")
           (PyValue.dict [("module", PyValue.str "m"), ("cls", PyValue.str "c")]))
         { dockWidgets := ["p"], apps := [("p", 5)],
           subscribers := [("swift", [5])], nextId := 6 }).1.apps.map Prod.fst) ∧
    broadcast env0 "swift"
        (createDestroyMsg (PyValue.str "n2")
          (PyValue.dict [("module", PyValue.str "m"), ("cls", PyValue.str "c")])
          (PyValue.str "n2"))
        { dockWidgets := ["p"], apps := [("p", 5)],
          subscribers := [("swift", [5])], nextId := 6 } =
      ({ dockWidgets := ["p"], apps := [("p", 5)],
         subscribers := subsEnsure [("swift", [5])] "swift", nextId := 7 },
       .ok ((subsGet [("swift", [5])] "swift").map
         (fun x => { target := x, channel := "swift",
                     message := createDestroyMsg (PyValue.str "n2")
                       (PyValue.dict [("module", PyValue.str "m"),
                                      ("cls", PyValue.str "c")])
                       (PyValue.str "n2") }))) :=
  broadcast_syscall_create_executes_and_fans_out env0
    { dockWidgets := ["p"], apps := [("p", 5)],
      subscribers := [("swift", [5])], nextId := 6 }
    { dockWidgets := ["p", "n2"], apps := [("p", 5), ("n2", 6)],
      subscribers := [("swift", [5])], nextId := 7 }
    { dockWidgets := ["p"], apps := [("p", 5)],
      subscribers := [("swift", [5])], nextId := 7 }
    "n2" (PyValue.str "n2")
    (PyValue.dict [("module", PyValue.str "m"), ("cls", PyValue.str "c")])
    (PyValue.str "n2")
    [("module", PyValue.str "m"), ("cls", PyValue.str "c")]
    { module := PyValue.str "m", cls := PyValue.str "c" }
    { module := "m", cls := "c", path := ".", show' := true, pos := "",
      channel := [], args := Option.none }
    (by decide) (by decide) (by decide) (by decide) (by decide) (by decide) (by decide)

/-- C10: within a single reserved-channel broadcast the system-call
actions run strictly before fan-out.  An application destroyed by the
message does not receive the raw command text even though it was
subscribed to the reserved channel when the broadcast started, and an
application created by the message whose descriptor subscribes it to the
reserved channel does receive the raw command text of that same
message. -/
theorem syscall_executes_before_fanout
    (env : Env) (s sd sc : SwiftState) (n n2 : String) (aid : Nat)
    (jn jn2 jinfo : PyValue) (kw : List (String × PyValue)) (info : AppInfo)
    (spec : AppSpec)
    (hjn : jsonLoad jn = .str n)
    (haid : assocGet? s.apps n = Option.some aid)
    (hsub : aid ∈ subsGet s.subscribers "swift")
    (hdes : destroyApp n s = (sd, .ok ()))
    (hjn2 : jsonLoad jn2 = .str n2)
    (hji : jsonLoad jinfo = .dict kw)
    (hmk : mkAppInfo kw = .ok info)
    (hspec : toSpec info = Option.some spec)
    (hswift : "swift" ∈ spec.channel)
    (hcreate : createApp env n2 spec s = (sc, .ok ())) :
    (∃ ds : List Delivery,
       broadcast env "swift" (.json (.dict [("destroy", jn)])) s =
         ({ sd with subscribers := subsEnsure sd.subscribers "swift" }, .ok ds) ∧
       aid ∉ ds.map Delivery.target) ∧
    (∃ ds : List Delivery,
       broadcast env "swift" (createMsg jn2 jinfo) s =
         ({ sc with subscribers := subsEnsure sc.subscribers "swift" }, .ok ds) ∧
       s.nextId ∈ ds.map Delivery.target) := by
  constructor
  · have hb := broadcast_of_ok env "swift" (.json (.dict [("destroy", jn)])) s sd
      (by rw [if_pos rfl]
          exact callSystem_destroy_ok env s sd n jn hjn hdes)
    refine ⟨_, hb, ?_⟩
    rw [map_target_map_mk]
    obtain ⟨aid2, ha2, hsdEq⟩ := destroyApp_ok_elim n s sd () hdes
    rw [haid] at ha2
    injection ha2 with he
    subst he
    rw [hsdEq]
    dsimp only
    rw [subsGet_map_filter]
    intro hmem
    have := (List.mem_filter.mp hmem).2
    simp at this
  · have hb := broadcast_of_ok env "swift" (createMsg jn2 jinfo) s sc
      (by rw [if_pos rfl]
          exact callSystem_create_ok env s sc n2 jn2 jinfo kw info spec hjn2 hji
            hmk hspec hcreate)
    refine ⟨_, hb, ?_⟩
    rw [map_target_map_mk]
    obtain ⟨-, hscEq⟩ := createApp_ok_elim env n2 spec s sc () hcreate
    rw [hscEq]
    simp only [createApply]
    exact mem_subsGet_foldl_subsAdd spec.channel s.subscribers "swift" s.nextId hswift

/-- C10, witness: a manager owning app `"n1"` (identity 3) subscribed to
the reserved channel; the destroy message drops it before fan-out, and a
create message for `"n2"` with a descriptor subscribing to the reserved
channel delivers the raw text to the new instance (identity 4). -/
theorem syscall_executes_before_fanout_witness :
    (∃ ds : List Delivery,
       broadcast env0 "swift" (.json (.dict [("destroy", PyValue.str "n1")]))
           { dockWidgets := ["n1"], apps := [("n1", 3)],
             subscribers := [("swift", [3])], nextId := 4 } =
         ({ dockWidgets := [], apps := [],
            subscribers := subsEnsure [("swift", [])] "swift", nextId := 4 },
          .ok ds) ∧
       3 ∉ ds.map Delivery.target) ∧
    (∃ ds : List Delivery,
       broadcast env0 "swift"
           (createMsg (PyValue.str "n2")
             (PyValue.dict [("module", PyValue.str "m"), ("cls", PyValue.str "c"),
                            ("channel", PyValue.list [PyValue.str "swift"])]))
           { dockWidgets := ["n1"], apps := [("n1", 3)],
             subscribers := [("swift", [3])], nextId := 4 } =
         ({ dockWidgets := ["n1", "n2"], apps := [("n1", 3), ("n2", 4)],
            subscribers := subsEnsure [("swift", [3, 4])] "swift", nextId := 5 },
          .ok ds) ∧
       4 ∈ ds.map Delivery.target) :=
  syscall_executes_before_fanout env0
    { dockWidgets := ["n1"], apps := [("n1", 3)],
      subscribers := [("swift", [3])], nextId := 4 }
    { dockWidgets := [], apps := [], subscribers := [("swift", [])], nextId := 4 }
    { dockWidgets := ["n1", "n2"], apps := [("n1", 3), ("n2", 4)],
      subscribers := [("swift", [3, 4])], nextId := 5 }
    "n1" "n2" 3 (PyValue.str "n1") (PyValue.str "n2")
    (PyValue.dict [("module", PyValue.str "m"), ("cls", PyValue.str "c"),
                   ("channel", PyValue.list [PyValue.str "swift"])])
    [("module", PyValue.str "m"), ("cls", PyValue.str "c"),
     ("channel", PyValue.list [PyValue.str "swift"])]
    { module := PyValue.str "m", cls := PyValue.str "c",
      channel := PyValue.list [PyValue.str "swift"] }
    { module := "m", cls := "c", path := ".", show' := true, pos := "",
      channel := ["swift"], args := Option.none }
    (by decide) (by decide) (by decide) (by decide) (by decide) (by decide)
    (by decide) (by decide) (by decide) (by decide)
